import Mathlib

/-!
Verification of the dropout-feature-ranking components of the repository:
`concrete_dropout.py` (ConcreteDropout, ConcreteRegularizer, Annealer) and
`test_mask.py` (train, preprocess_data).  Numeric quantities that the Python
code holds in floating point are modelled in exact arithmetic: `ℚ` where the
claims are about finite state traces, `ℝ` where they are about sigmoid/log
analysis.
-/

namespace DropoutRanking

/-! ### Annealer (concrete_dropout.py, lines 58-74)

The Python `Annealer.__init__` stores the optimizer, `max_rate`,
`stepsize = max_rate / n` and `current_lr = 0`.  The optimizer is modelled by
the only part the Annealer touches: the list of its parameter groups'
learning-rate fields. -/

structure Annealer where
  maxRate : ℚ
  stepsize : ℚ
  currentLr : ℚ
  paramGroupLrs : List ℚ
  deriving Repr, DecidableEq

/-- `Annealer.__init__(optimizer, n, max_rate)` on the success path:
stores `max_rate`, `stepsize = max_rate / n`, `current_lr = 0`, and leaves
the optimizer's parameter groups untouched. -/
def Annealer.init (lrs : List ℚ) (n : ℚ) (maxRate : ℚ) : Annealer :=
  { maxRate := maxRate
    stepsize := maxRate / n
    currentLr := 0
    paramGroupLrs := lrs }

/-- `Annealer.__init__` including the fallibility of `max_rate / n`: Python
raises `ZeroDivisionError` when `n = 0`. -/
def Annealer.initE (lrs : List ℚ) (n : ℚ) (maxRate : ℚ) : Option Annealer :=
  if n = 0 then none else some (Annealer.init lrs n maxRate)

/-- `Annealer.step`: write `current_lr` into every parameter group's `lr`
field, then, if `current_lr < max_rate`, increment it by `stepsize`. -/
def Annealer.step (a : Annealer) : Annealer :=
  { a with
    paramGroupLrs := a.paramGroupLrs.map fun _ => a.currentLr
    currentLr := if a.currentLr < a.maxRate then a.currentLr + a.stepsize else a.currentLr }

/-- The sequence of learning-rate values written to the parameter groups by
`n` successive `step()` calls (each call writes the pre-increment
`current_lr`). -/
def Annealer.writtenTrace : Annealer → ℕ → List ℚ
  | _, 0 => []
  | a, n + 1 => a.currentLr :: (a.step).writtenTrace n

/-! ### Training loop (test_mask.py, lines 36-84)

The early-stopping state of `train` is `patience_counter`, `best_loss`
(initially `np.inf`, modelled as `none`) and the checkpoint on disk
(the epoch number whose weights were last saved to `model_path`).  Each
epoch produces a validation loss; the loop body compares it with
`best_loss` and either saves a checkpoint and resets the counter, or
increments the counter; it breaks when `patience_counter == patience`. -/

structure TrainState where
  patienceCounter : ℕ
  bestLoss : Option ℚ
  checkpoint : Option ℕ
  epochsProcessed : ℕ
  deriving Repr, DecidableEq

/-- `val_loss < best_loss` where `best_loss` starts at `np.inf`. -/
def improvedLoss (best : Option ℚ) (valLoss : ℚ) : Bool :=
  match best with
  | none => true
  | some b => valLoss < b

/-- One epoch of the `train` loop body after the validation loss is known:
on strict improvement save the checkpoint and reset the patience counter,
otherwise increment it. -/
def trainEpoch (s : TrainState) (epoch : ℕ) (valLoss : ℚ) : TrainState :=
  if improvedLoss s.bestLoss valLoss then
    { patienceCounter := 0
      bestLoss := some valLoss
      checkpoint := some epoch
      epochsProcessed := epoch }
  else
    { s with
      patienceCounter := s.patienceCounter + 1
      epochsProcessed := epoch }

/-- The epoch loop: process validation losses in order (epochs numbered from
1 as in `itertools.count(start=1)`), breaking as soon as
`patience_counter == patience` after an epoch. -/
def trainGo (patience : ℕ) : TrainState → ℕ → List ℚ → TrainState
  | s, _, [] => s
  | s, epoch, v :: rest =>
    let s2 := trainEpoch s epoch v
    if s2.patienceCounter = patience then s2 else trainGo patience s2 (epoch + 1) rest

/-- `train` restricted to its early-stopping behaviour: fold the epoch loop
over the sequence of validation losses from the initial state
(`patience_counter = 0`, `best_loss = np.inf`, nothing saved).  The
model returned by `train` is the one reloaded from `model_path`, i.e. the
`checkpoint` field of the final state. -/
def runTrain (patience : ℕ) (losses : List ℚ) : TrainState :=
  trainGo patience
    { patienceCounter := 0, bestLoss := none, checkpoint := none, epochsProcessed := 0 }
    1 losses

/-! ### ConcreteDropout (concrete_dropout.py, lines 5-42)

A tensor of the declared input shape is modelled as a function from an index
type `ι` to `ℝ` (`ι` can be `Fin a`, `Fin a × Fin b`, ..., covering any
shape).  `torch.sigmoid` and `torch.log` are elementwise `sigmoid` and
`Real.log`. -/

/-- `torch.sigmoid` on one element. -/
noncomputable def sigmoid (x : ℝ) : ℝ := 1 / (1 + Real.exp (-x))

/-- The state a `ConcreteDropout` cell holds after `__init__`: the learnable
`parameter_mask` tensor and the temperature `t`. -/
structure ConcreteDropout (ι : Type) where
  parameterMask : ι → ℝ
  t : ℝ

/-- `ConcreteDropout.__init__(input_shape)` with the default arguments
`init_values = 0.3`, `t = 0.1`: the float branch sets
`parameter_mask = torch.ones(input_shape) * 0.3`. -/
noncomputable def ConcreteDropout.initDefault (ι : Type) : ConcreteDropout ι :=
  { parameterMask := fun _ => 1 * (3/10)
    t := 1/10 }

/-- `p = torch.sigmoid(self.parameter_mask)` — the keep probability of each
feature, the first line of `ConcreteDropout.forward`. -/
noncomputable def ConcreteDropout.keepProb {ι : Type} (cd : ConcreteDropout ι) (i : ι) : ℝ :=
  sigmoid (cd.parameterMask i)

/-- `ConcreteDropout.forward(input)` in training mode, with the uniform draw
`u` (the tensor `torch.empty(input_shape).uniform_()`) made an explicit
argument: returns the pair `((1 - mask) * input, mask)` where
`mask = sigmoid((1/t) * (log(p + 1e-7) - log(1 - p + 1e-7)
                         + log(u + 1e-7) - log(1 - u + 1e-7)))`. -/
noncomputable def ConcreteDropout.forwardTrain {ι : Type} (cd : ConcreteDropout ι)
    (input u : ι → ℝ) : (ι → ℝ) × (ι → ℝ) :=
  let p := fun i => sigmoid (cd.parameterMask i)
  let mask := fun i =>
    sigmoid ((1 / cd.t) *
      (Real.log (p i + 1e-7) - Real.log (1 - p i + 1e-7) +
       Real.log (u i + 1e-7) - Real.log (1 - u i + 1e-7)))
  (fun i => (1 - mask i) * input i, mask)

/-- `ConcreteDropout.forward(input)` in evaluation mode: the same computation
but only the masked output is returned. -/
noncomputable def ConcreteDropout.forwardEval {ι : Type} (cd : ConcreteDropout ι)
    (input u : ι → ℝ) : ι → ℝ :=
  (cd.forwardTrain input u).1

/-! #### Shape check in `__init__` (lines 21-27)

For the constructor's failure behaviour the tensor argument is modelled with
its shape datum: `torch.Size` as `List ℕ` plus flattened contents.  A `float`
initial value takes the other branch and never fails. -/

structure ShapedTensor where
  shape : List ℕ
  data : List ℝ

/-- The `init_values` argument: `float` or tensor, as dispatched by
`type(init_values) is float`. -/
inductive InitArg where
  | float (v : ℝ)
  | tensor (tv : ShapedTensor)

/-- `ConcreteDropout.__init__` at shape level: the float branch broadcasts to
`input_shape`; the tensor branch asserts
`init_values.shape == input_shape` and fails with the assertion message on
mismatch, before any forward pass can occur. -/
def concreteDropoutInit (inputShape : List ℕ) (iv : InitArg) (t : ℝ) :
    Except String (ShapedTensor × ℝ) :=
  match iv with
  | .float v => .ok (⟨inputShape, List.replicate inputShape.prod v⟩, t)
  | .tensor tv =>
    if tv.shape = inputShape then .ok (tv, t)
    else .error "Mask tensor must have the same shape as the input tensor!"

/-! ### ConcreteRegularizer (concrete_dropout.py, lines 45-55) -/

/-- `ConcreteRegularizer.__init__(lam)` stores the coefficient. -/
structure ConcreteRegularizer where
  lam : ℝ

/-- `ConcreteRegularizer.forward(mask)`:
`lam * torch.sum(mask, tuple(range(mask.ndimension())))` — the sum runs over
every dimension, i.e. over every element of the tensor, producing one
scalar. -/
noncomputable def ConcreteRegularizer.forward {ι : Type} [Fintype ι]
    (r : ConcreteRegularizer) (mask : ι → ℝ) : ℝ :=
  r.lam * ∑ i, mask i

/-! ### preprocess_data (test_mask.py, lines 105-147)

The feature-subset step is modelled on its in-memory data: the normalizing
dictionary as an index-lookup function `idxOf` together with its size `n`
(`len(org_dict)`), the selected feature names as a list, and the input array
as a rank-3 nested list sliced on its last axis. -/

/-- `relevant_indices = [org_dict[feat]['idx'] for feat in features]`,
extended with `idx + len(org_dict)` companion columns when
`masking_features` is set. -/
def relevantIndices (idxOf : String → ℕ) (n : ℕ) (features : List String)
    (masking : Bool) : List ℕ :=
  let base := features.map idxOf
  if masking then base ++ base.map (fun idx => idx + n) else base

/-- `new_dict = {feat: {'idx': idx} for idx, feat in enumerate(features)}`,
keeping only the `idx` field. -/
def newNormalizingDict (features : List String) : List (String × ℕ) :=
  features.enum.map fun p => (p.2, p.1)

/-- `new_input = org_input[:, :, relevant_indices]`: fancy indexing on the
last axis of a rank-3 array. -/
def sliceLastDim (input : List (List (List ℝ))) (indices : List ℕ) :
    List (List (List ℝ)) :=
  input.map fun plane => plane.map fun row => indices.map fun idx => row.getD idx 0

end DropoutRanking

namespace DropoutRanking

/-- Helper: once `current_lr` has reached `max_rate`, every further `step()`
writes `max_rate` and leaves the state's rate unchanged. -/
theorem writtenTrace_of_saturated (n : ℕ) (a : Annealer)
    (h : a.currentLr = a.maxRate) :
    a.writtenTrace n = List.replicate n a.maxRate := by
  induction n generalizing a with
  | zero => rfl
  | succ m ih =>
    have hstep : a.step = { a with paramGroupLrs := a.paramGroupLrs.map fun _ => a.currentLr } := by
      simp [Annealer.step, h]
    simp [Annealer.writtenTrace, h, hstep, List.replicate, ih]

/-- C2: every `step()` writes the current rate into every parameter group,
and for `n = 3`, `max_rate = 0.9` the written rates over the first `6`
(indeed any `k + 6`) calls are `0, 0.3, 0.6, 0.9` followed only by `0.9`:
a linear ramp of increments `max_rate / n` that reaches `max_rate` and then
stays there permanently, never exceeding it. -/
theorem annealer_ramp_then_plateau :
    (∀ a : Annealer, (a.step).paramGroupLrs = a.paramGroupLrs.map fun _ => a.currentLr) ∧
    (∀ (lrs : List ℚ) (k : ℕ),
      (Annealer.init lrs 3 (9/10)).writtenTrace (k + 6) =
        [0, 3/10, 3/5, 9/10] ++ List.replicate (k + 2) (9/10)) := by
  constructor
  · intro a; rfl
  · intro lrs k
    have h4 : (Annealer.init lrs 3 (9/10)).writtenTrace (k + 6) =
        0 :: 3/10 :: 3/5 :: 9/10 ::
          ((((Annealer.init lrs 3 (9/10)).step).step).step).step.writtenTrace (k + 2) := by
      show Annealer.writtenTrace _ (k + 6) = _
      norm_num [Annealer.writtenTrace, Annealer.step, Annealer.init]
    rw [h4, writtenTrace_of_saturated (k + 2) _ (by norm_num [Annealer.step, Annealer.init])]
    norm_num [Annealer.step, Annealer.init]

/-- C5 counterexample: after construction with zero `step()` calls, the
parameter groups are NOT left at learning rate `0`.  Wrapping an optimizer
whose single parameter group has `lr = 1/1000` (the Adam default used in
`test_mask.py`), construction leaves that field at `1/1000`. -/
theorem annealer_construction_lr_not_zero :
    (Annealer.init [1/1000] 30 (1/100)).paramGroupLrs ≠ [0] := by
  norm_num [Annealer.init]

/-- C5 amended: construction leaves every wrapped parameter group's
learning-rate field unchanged (the constructor never writes to it); only the
Annealer's internal current rate starts at `0`, so the FIRST `step()` call is
what writes `0` into every parameter group. -/
theorem annealer_construction_keeps_lrs :
    ∀ (lrs : List ℚ) (n maxRate : ℚ),
      (Annealer.init lrs n maxRate).paramGroupLrs = lrs ∧
      (Annealer.init lrs n maxRate).currentLr = 0 ∧
      ((Annealer.init lrs n maxRate).step).paramGroupLrs = lrs.map fun _ => 0 := by
  intro lrs n maxRate
  exact ⟨rfl, rfl, rfl⟩

/-- C10: `Annealer.__init__` computes `stepsize = max_rate / n` with no
guard: for every `n ≠ 0` construction succeeds with `stepsize = max_rate / n`,
current rate `0` and the parameter groups untouched, while `n = 0` hits an
unguarded division by zero and fails. -/
theorem annealer_init_division (lrs : List ℚ) (n maxRate : ℚ) :
    (n ≠ 0 → Annealer.initE lrs n maxRate =
      some { maxRate := maxRate, stepsize := maxRate / n, currentLr := 0,
             paramGroupLrs := lrs }) ∧
    Annealer.initE lrs 0 maxRate = none := by
  constructor
  · intro hn
    simp [Annealer.initE, Annealer.init, hn]
  · simp [Annealer.initE]

/-- C10 witness: with one parameter group, `n = 3` and `max_rate = 9/10`,
construction succeeds with `stepsize = 3/10`, and `n = 0` fails. -/
theorem annealer_init_division_witness :
    Annealer.initE [1/1000] 3 (9/10) =
      some { maxRate := 9/10, stepsize := (9/10) / 3, currentLr := 0,
             paramGroupLrs := [1/1000] } ∧
    Annealer.initE [1/1000] 0 (9/10) = none :=
  ⟨(annealer_init_division [1/1000] 3 (9/10)).1 (by norm_num),
   (annealer_init_division [1/1000] 0 (9/10)).2⟩

/-- C4: the early-stopping state machine resets the patience counter to `0`
exactly on strict improvement (persisting the checkpoint then) and increments
it otherwise; with `patience = 2` and validation losses
`[0.5, 0.4, 0.45, 0.46]` (followed by anything) training stops after
processing epoch `4` and the model reloaded and returned is the epoch-2
(best-validation-loss) checkpoint. -/
theorem early_stopping_patience_two :
    (∀ (s : TrainState) (epoch : ℕ) (valLoss : ℚ),
      (trainEpoch s epoch valLoss).patienceCounter =
        (if improvedLoss s.bestLoss valLoss then 0 else s.patienceCounter + 1) ∧
      (trainEpoch s epoch valLoss).checkpoint =
        (if improvedLoss s.bestLoss valLoss then some epoch else s.checkpoint)) ∧
    (∀ extra : List ℚ,
      runTrain 2 ([1/2, 2/5, 9/20, 23/50] ++ extra) =
        { patienceCounter := 2, bestLoss := some (2/5), checkpoint := some 2,
          epochsProcessed := 4 }) := by
  constructor
  · intro s epoch valLoss
    by_cases h : improvedLoss s.bestLoss valLoss
    · simp [trainEpoch, h]
    · simp [trainEpoch, h]
  · intro extra
    norm_num [runTrain, trainGo, trainEpoch, improvedLoss]

/-- Helper: the sigmoid of any real number is strictly positive. -/
theorem sigmoid_pos (x : ℝ) : 0 < sigmoid x := by
  unfold sigmoid
  positivity

/-- Helper: the sigmoid of any real number is strictly below one. -/
theorem sigmoid_lt_one (x : ℝ) : sigmoid x < 1 := by
  unfold sigmoid
  have he := Real.exp_pos (-x)
  rw [div_lt_one (by linarith)]
  linarith

/-- Helper: the sigmoid of a strictly positive number exceeds one half. -/
theorem half_lt_sigmoid (x : ℝ) (hx : 0 < x) : 1/2 < sigmoid x := by
  unfold sigmoid
  have he : Real.exp (-x) < 1 := Real.exp_lt_one_iff.mpr (by linarith)
  have hp : (0:ℝ) < 1 + Real.exp (-x) := by positivity
  rw [lt_div_iff₀ hp]
  linarith

/-- C1: for every input tensor of the declared shape, every mask-parameter
tensor and every uniform draw `u` with values in `[0, 1]`, the training-mode
forward pass returns a masked output equal elementwise to `(1 - m) * input`,
with the soft mask `m` strictly inside the open interval `(0, 1)`. -/
theorem forward_masked_output_open_mask {ι : Type} (cd : ConcreteDropout ι)
    (input u : ι → ℝ) (_hu : ∀ i, 0 ≤ u i ∧ u i ≤ 1) :
    ∀ i, (cd.forwardTrain input u).1 i =
        (1 - (cd.forwardTrain input u).2 i) * input i ∧
      0 < (cd.forwardTrain input u).2 i ∧ (cd.forwardTrain input u).2 i < 1 := by
  intro i
  refine ⟨rfl, ?_, ?_⟩
  · exact sigmoid_pos _
  · exact sigmoid_lt_one _

/-- C1 witness: the defaults on a one-element shape, input `2`, draw `1/2`. -/
theorem forward_masked_output_open_mask_witness :
    ((ConcreteDropout.initDefault (Fin 1)).forwardTrain (fun _ => 2) (fun _ => 1/2)).1 0 =
      (1 - ((ConcreteDropout.initDefault (Fin 1)).forwardTrain
        (fun _ => 2) (fun _ => 1/2)).2 0) * 2 ∧
    0 < ((ConcreteDropout.initDefault (Fin 1)).forwardTrain (fun _ => 2) (fun _ => 1/2)).2 0 ∧
    ((ConcreteDropout.initDefault (Fin 1)).forwardTrain (fun _ => 2) (fun _ => 1/2)).2 0 < 1 :=
  forward_masked_output_open_mask (ConcreteDropout.initDefault (Fin 1))
    (fun _ => 2) (fun _ => 1/2) (fun _ => ⟨by norm_num, by norm_num⟩) 0

/-- C3 counterexample: with the default `init_values = 0.3`, the keep
probability `sigmoid(parameter_mask)` of a feature is NOT `0.3` — the `0.3`
is stored as the pre-sigmoid logit, and `sigmoid(0.3) > 1/2`. -/
theorem keepProb_default_ne_three_tenths :
    (ConcreteDropout.initDefault (Fin 1)).keepProb 0 ≠ 3/10 := by
  have h1 : (ConcreteDropout.initDefault (Fin 1)).keepProb 0 = sigmoid (3/10) := by
    simp [ConcreteDropout.keepProb, ConcreteDropout.initDefault]
  rw [h1]
  have h2 := half_lt_sigmoid (3/10) (by norm_num)
  intro hc
  rw [hc] at h2
  norm_num at h2

/-- C3 amended: with the default initial value, the initial keep probability
of every feature equals `sigmoid(0.3)` (approximately `0.574`), which is
strictly greater than `1/2` — not `0.3`. -/
theorem keepProb_default_eq_sigmoid (ι : Type) (i : ι) :
    (ConcreteDropout.initDefault ι).keepProb i = sigmoid (3/10) ∧
    1/2 < (ConcreteDropout.initDefault ι).keepProb i := by
  have h1 : (ConcreteDropout.initDefault ι).keepProb i = sigmoid (3/10) := by
    simp [ConcreteDropout.keepProb, ConcreteDropout.initDefault]
  exact ⟨h1, h1 ▸ half_lt_sigmoid (3/10) (by norm_num)⟩

/-- C6: for every mask tensor of arbitrary rank and coefficient `lam`, the
regularizer returns the single scalar `lam` times the sum of the mask over
all of its dimensions, and doubling `lam` exactly doubles the penalty. -/
theorem regularizer_proportional_in_lam {ι : Type} [Fintype ι]
    (lam : ℝ) (mask : ι → ℝ) :
    (ConcreteRegularizer.mk lam).forward mask = lam * ∑ i, mask i ∧
    (ConcreteRegularizer.mk (2 * lam)).forward mask =
      2 * (ConcreteRegularizer.mk lam).forward mask := by
  refine ⟨rfl, ?_⟩
  unfold ConcreteRegularizer.forward
  ring

/-- C7: constructing the cell with an initial-values tensor whose shape
differs from the declared input shape fails with the shape-mismatch
assertion at construction time; construction with a matching-shape tensor
succeeds. -/
theorem init_shape_check (inputShape : List ℕ) (tv : ShapedTensor) (t : ℝ) :
    (tv.shape ≠ inputShape → concreteDropoutInit inputShape (.tensor tv) t =
      .error "Mask tensor must have the same shape as the input tensor!") ∧
    (tv.shape = inputShape →
      concreteDropoutInit inputShape (.tensor tv) t = .ok (tv, t)) := by
  constructor <;> intro h <;> simp [concreteDropoutInit, h]

/-- C7 witness: shape `[3]` against declared `[2]` fails, `[2]` against `[2]`
succeeds. -/
theorem init_shape_check_witness :
    concreteDropoutInit [2] (.tensor ⟨[3], [0, 0, 0]⟩) (1/10) =
      .error "Mask tensor must have the same shape as the input tensor!" ∧
    concreteDropoutInit [2] (.tensor ⟨[2], [0, 0]⟩) (1/10) =
      .ok (⟨[2], [0, 0]⟩, 1/10) :=
  ⟨(init_shape_check [2] ⟨[3], [0, 0, 0]⟩ (1/10)).1 (by decide),
   (init_shape_check [2] ⟨[2], [0, 0]⟩ (1/10)).2 rfl⟩

/-- Helper: the `idx` values of the rebuilt normalizing dictionary are
`0, 1, ..., k-1` in the order of the selected features. -/
theorem newNormalizingDict_idx (features : List String) :
    (newNormalizingDict features).map Prod.snd = List.range features.length := by
  unfold newNormalizingDict
  rw [List.map_map]
  show List.map Prod.fst features.enum = List.range features.length
  exact List.enum_map_fst features

/-- C8: selecting `k` feature names produces a sliced input array whose last
dimension is exactly `k` (`2k` when masking-features companion columns are
requested) and a new normalizing dictionary whose `idx` values are the
contiguous range `0..k-1` in the order the features were selected. -/
theorem feature_subset_shape (idxOf : String → ℕ) (n : ℕ)
    (features : List String) (masking : Bool) (input : List (List (List ℝ))) :
    (relevantIndices idxOf n features masking).length =
      (if masking then 2 * features.length else features.length) ∧
    ((sliceLastDim input (relevantIndices idxOf n features masking)).all fun plane =>
      plane.all fun row =>
        row.length == (if masking then 2 * features.length else features.length)) = true ∧
    (newNormalizingDict features).map Prod.snd = List.range features.length := by
  have hlen : (relevantIndices idxOf n features masking).length =
      (if masking then 2 * features.length else features.length) := by
    cases masking <;> simp [relevantIndices] <;> ring
  refine ⟨hlen, ?_, newNormalizingDict_idx features⟩
  simp only [sliceLastDim, List.all_eq_true, List.mem_map]
  rintro plane ⟨p0, _, rfl⟩ row hrow
  simp only [List.mem_map] at hrow
  obtain ⟨r0, _, rfl⟩ := hrow
  simp [hlen]

/-- C9: with `patience = 0` the loop terminates after exactly one epoch and
returns the epoch-1 checkpoint, even though epoch 1 strictly improved the
best validation loss (any first loss beats `np.inf`): the
`patience_counter == patience` break is checked after every epoch, including
epochs that have just reset the counter to `0`. -/
theorem patience_zero_stops_after_one_epoch (v : ℚ) (rest : List ℚ) :
    runTrain 0 (v :: rest) =
      { patienceCounter := 0, bestLoss := some v, checkpoint := some 1,
        epochsProcessed := 1 } := by
  rfl

end DropoutRanking
